import Mathlib

/-!
Shallow embedding of the aeon-protocol video-generation job lifecycle and
comment store, translated from the web application sources:

* `apps/web/app/api/video/status/route.ts` — output normalization;
* `apps/web/app/api/video/generate/route.ts` — the Request Submitter route;
* `apps/web/components/modules/video-hub.tsx` — the client submit handler,
  the interval-based Status Poller, and the Local Result Cache;
* `apps/web/lib/db.ts`, `apps/web/app/api/init-db/route.ts` and the
  comments page server action — the comment store.

JavaScript runtime values are modelled by a JSON-like inductive type with
explicit truthiness; absent object keys and omitted body fields are
`Option.none`; thrown exceptions are `Except.error`; `console` output is
counted. Asynchronous polling is modelled as an atomic step function on
the component state, consuming one status response per interval tick.
-/

namespace Aeon

/-- JSON-style runtime values as handled by the route handlers. -/
inductive Json where
  | str : String → Json
  | num : Int → Json
  | bool : Bool → Json
  | null : Json
  | arr : List Json → Json
  | obj : List (String × Json) → Json

/-- JavaScript truthiness of a JSON value (absent keys are handled by callers via `Option`). -/
def truthy : Json → Bool
  | .str s => s != ""
  | .num n => n != 0
  | .bool b => b
  | .null => false
  | .arr _ => true
  | .obj _ => true

/-- The check `typeof u === "string"` on a JSON value. -/
def isStringJson : Json → Bool
  | .str _ => true
  | _ => false

/-- JavaScript `String.prototype.endsWith`, over the character list (a
structurally recursive suffix test with the same result as `String.endsWith`). -/
def strEndsWith (s suffix : String) : Bool :=
  suffix.data.isSuffixOf s.data

/-- JavaScript `String.prototype.trim`, over the character list: drop
whitespace from both ends. -/
def strTrim (s : String) : String :=
  ⟨((s.data.dropWhile Char.isWhitespace).reverse.dropWhile Char.isWhitespace).reverse⟩

/-- The array-entry predicate of the status route: a string ending in `".mp4"`. -/
def endsWithMp4 : Json → Bool
  | .str s => strEndsWith s ".mp4"
  | _ => false

/-- Property access `fields[k]` on an object: `none` models `undefined`. -/
def objLookup (fields : List (String × Json)) (k : String) : Option Json :=
  (fields.find? (fun p => p.fst == k)).map Prod.snd

/-- Output normalization from `status/route.ts` (lines 25-34): a raw string is
kept; an array yields the first string entry ending in `".mp4"`, else the first
string entry, else null; an object yields `output.video || output.url || null`
with JavaScript truthiness; every other shape yields null. -/
def normalizeOutput : Json → Json
  | .str s => .str s
  | .arr xs =>
      match xs.find? endsWithMp4 with
      | some u => u
      | none =>
        match xs.find? isStringJson with
        | some u => u
        | none => .null
  | .obj fields =>
      let v := (objLookup fields "video").getD .null
      if truthy v then v
      else
        let u := (objLookup fields "url").getD .null
        if truthy u then u else .null
  | _ => .null

/-- The normalization contract exactly as the claim words it: for a keyed
structure the value under the `video` key is chosen, else the value under the
`url` key, else null. -/
def normalizeOutputClaim : Json → Json
  | .str s => .str s
  | .arr xs =>
      match (xs.filter endsWithMp4).head? with
      | some u => u
      | none =>
        match (xs.filter isStringJson).head? with
        | some u => u
        | none => .null
  | .obj fields =>
      match objLookup fields "video" with
      | some v => v
      | none =>
        match objLookup fields "url" with
        | some u => u
        | none => .null
  | _ => .null

/-- Amended normalization contract: for a keyed structure the first truthy
value among the `video` then `url` keys is chosen, else null. -/
def normalizeOutputAmended : Json → Json
  | .str s => .str s
  | .arr xs =>
      match (xs.filter endsWithMp4).head? with
      | some u => u
      | none =>
        match (xs.filter isStringJson).head? with
        | some u => u
        | none => .null
  | .obj fields =>
      match ((["video", "url"].filterMap (objLookup fields)).filter truthy).head? with
      | some v => v
      | none => .null
  | _ => .null

theorem truthy_null : truthy Json.null = false := rfl

theorem list_find?_eq_head?_filter {α : Type} (p : α → Bool) (l : List α) :
    l.find? p = (l.filter p).head? := by
  induction l with
  | nil => rfl
  | cons a l ih =>
    cases h : p a
    · rw [List.find?_cons_of_neg _ (by simp [h]), List.filter_cons_of_neg (by simp [h]), ih]
    · rw [List.find?_cons_of_pos _ h, List.filter_cons_of_pos (by simp [h]), List.head?_cons]

/-- A keyed output with a present but empty `video` value and a nonempty `url`. -/
def cexOutputObj : Json := .obj [("video", .str ""), ("url", .str "https://x/b.mp4")]

/-- C1 counterexample: on `output = \x7bvideo: "", url: "https://x/b.mp4"\x7d` the
code returns the `url` value while the claim as stated selects the (empty)
value under the `video` key; the two results differ. -/
theorem c1_counterexample :
    normalizeOutput cexOutputObj = .str "https://x/b.mp4" ∧
    normalizeOutputClaim cexOutputObj = .str "" ∧
    normalizeOutput cexOutputObj ≠ normalizeOutputClaim cexOutputObj := by
  refine ⟨rfl, rfl, ?_⟩
  intro h
  rw [show normalizeOutput cexOutputObj = .str "https://x/b.mp4" from rfl,
      show normalizeOutputClaim cexOutputObj = .str "" from rfl] at h
  injection h with h2
  exact absurd h2 (by decide)

/-- C1 (amended): normalization maps every provider output shape to at most one
result with a fixed priority — a raw string as-is; for a list, the first entry
ending in `".mp4"`, else the first string entry, else null; for a keyed
structure the first truthy value among `video` then `url`, else null; any
other shape yields null. The spec's array example selects the `.mp4` entry. -/
theorem c1_normalization_amended :
    (∀ j : Json, normalizeOutput j = normalizeOutputAmended j) ∧
    normalizeOutput (.arr [.str "https://x/a.png", .str "https://x/b.mp4"])
      = .str "https://x/b.mp4" := by
  constructor
  · intro j
    cases j with
    | str s => rfl
    | num n => rfl
    | bool b => rfl
    | null => rfl
    | arr xs =>
        show (match xs.find? endsWithMp4 with
              | some u => u
              | none =>
                match xs.find? isStringJson with
                | some u => u
                | none => Json.null)
            = (match (xs.filter endsWithMp4).head? with
              | some u => u
              | none =>
                match (xs.filter isStringJson).head? with
                | some u => u
                | none => Json.null)
        rw [list_find?_eq_head?_filter, list_find?_eq_head?_filter]
    | obj fields =>
        show (let v := (objLookup fields "video").getD Json.null
              if truthy v then v
              else
                let u := (objLookup fields "url").getD Json.null
                if truthy u then u else Json.null)
            = (match ((["video", "url"].filterMap (objLookup fields)).filter truthy).head? with
              | some v => v
              | none => Json.null)
        simp only [List.filterMap_cons, List.filterMap_nil]
        cases hv : objLookup fields "video" with
        | none =>
          cases hu : objLookup fields "url" with
          | none => rfl
          | some u =>
            cases htu : truthy u <;>
              simp [htu, truthy_null, Option.getD_none, Option.getD_some]
        | some v =>
          cases hu : objLookup fields "url" with
          | none =>
            cases htv : truthy v <;>
              simp [htv, truthy_null, Option.getD_none, Option.getD_some]
          | some u =>
            cases htv : truthy v <;> cases htu : truthy u <;>
              simp [htv, htu, truthy_null, Option.getD_none, Option.getD_some]
  · rfl

/-! The generate route (`generate/route.ts`) and the client submit handler. -/

/-- Item of the client-local video library (`video-hub.tsx`). At runtime the
stored url is whatever JSON value normalization produced, so it is a `Json`. -/
structure LibraryItem where
  id : String
  prompt : String
  createdAt : Nat
  url : Json
  duration : Int
  resolution : String

/-- Parsed JSON body of a POST to the generate route; `none` marks an absent key. -/
structure RequestBody where
  prompt : Option Json
  duration : Option Json
  resolution : Option Json

/-- Hard-coded Hailuo model version id from the generate route. -/
def defaultModelVersion : String :=
  "d615361988ffcbadecfe52b95dd9302a8d6e1069c908a05104f36b651aea6c95"

/-- JavaScript `a || b` over an optional string: absent and empty are falsy. -/
def strOrElse (a : Option String) (b : String) : String :=
  match a with
  | some s => if s != "" then s else b
  | none => b

/-- One outbound creation call to the Replicate predictions endpoint. -/
structure GenerateCall where
  version : String
  prompt : Json
  duration : Json
  resolution : Json
  promptOptimizer : Bool

/-- Provider response to a creation call. -/
inductive ProviderResp where
  | ok (id : String) (status : String)
  | err (detail : Option String) (httpStatus : Nat)

/-- HTTP response produced by the generate route. -/
inductive GenResponse where
  | errorResp (msg : String) (code : Nat)
  | okResp (id : String) (status : String)

/-- Observable outcome of one invocation of the generate route: the outbound
calls it made and its HTTP response. The route handler touches no client-local
storage; `cacheWrites` records that absence explicitly. -/
structure RouteOutcome where
  calls : List GenerateCall
  response : GenResponse
  cacheWrites : List LibraryItem

/-- The route's prompt guard `!prompt || typeof prompt !== "string"`:
the prompt passes exactly when it is a nonempty (truthy) string. -/
def validPrompt : Option Json → Bool
  | some (.str s) => s != ""
  | _ => false

/-- POST handler of `generate/route.ts`, as a function of the parsed body,
token availability, the optional version-id environment override, and the
provider response it would receive for its single outbound call. Defaults
`duration = 6` and `resolution = "768p"` come from the destructuring. -/
def videoGeneratePOST (tokenConfigured : Bool) (versionOverride : Option String)
    (body : RequestBody) (resp : ProviderResp) : RouteOutcome :=
  let dur := body.duration.getD (.num 6)
  let res := body.resolution.getD (.str "768p")
  if !(validPrompt body.prompt) then
    ⟨[], .errorResp "Missing prompt" 400, []⟩
  else if !tokenConfigured then
    ⟨[], .errorResp "REPLICATE_API_TOKEN not configured" 500, []⟩
  else
    let call : GenerateCall :=
      ⟨strOrElse versionOverride defaultModelVersion,
        body.prompt.getD .null, dur, res, true⟩
    match resp with
    | .ok id st => ⟨[call], .okResp id st, []⟩
    | .err detail code => ⟨[call], .errorResp (strOrElse detail "Replicate error") code, []⟩

/-- Body built by the client `handleGenerate`: the prompt is trimmed before
being sent; the duration slot holds `duration[0]` (absent if the slider state
is empty, in which case JSON serialization omits the key). -/
def handleGenerateBody (uiPrompt : String) (durationHead : Option Int)
    (resolution : String) : RequestBody :=
  ⟨some (.str (strTrim uiPrompt)), durationHead.map Json.num, some (.str resolution)⟩

/-- C4: a submission whose prompt is empty or whitespace-only (trims to empty)
produces no outbound call to the inference boundary and yields the validation
error, for every token configuration and provider behaviour; and any
invocation of the route that does place an outbound call had a valid
(nonempty string) prompt. -/
theorem c4_empty_prompt_validation (uiPrompt : String) (h : strTrim uiPrompt = "")
    (durationHead : Option Int) (res : String) (tok : Bool) (ver : Option String)
    (resp : ProviderResp) :
    (videoGeneratePOST tok ver (handleGenerateBody uiPrompt durationHead res) resp).calls
      = [] ∧
    (videoGeneratePOST tok ver (handleGenerateBody uiPrompt durationHead res) resp).response
      = .errorResp "Missing prompt" 400 ∧
    (∀ (tok2 : Bool) (ver2 : Option String) (body : RequestBody) (resp2 : ProviderResp),
      (videoGeneratePOST tok2 ver2 body resp2).calls ≠ [] →
        validPrompt body.prompt = true) := by
  refine ⟨?_, ?_, ?_⟩
  · simp [videoGeneratePOST, handleGenerateBody, validPrompt, h]
  · simp [videoGeneratePOST, handleGenerateBody, validPrompt, h]
  · intro tok2 ver2 body resp2 hcalls
    by_cases hvp : validPrompt body.prompt = true
    · exact hvp
    · exfalso
      apply hcalls
      simp [videoGeneratePOST, hvp]

/-- Witness for C4 at the whitespace-only prompt `" "`. -/
theorem c4_witness :
    (videoGeneratePOST true none (handleGenerateBody " " (some 6) "768p")
      (.ok "a" "queued")).calls = [] :=
  (c4_empty_prompt_validation " " (by decide) (some 6) "768p" true none
    (.ok "a" "queued")).1

/-- Concrete valid body used by the C9 counterexample. -/
def c9Body : RequestBody := ⟨some (.str "a cat"), some (.num 6), some (.str "768p")⟩

/-- C9 counterexample: on a success response whose provider-reported status is
`"processing"`, the route returns a handle with status `"processing"`, not
`"queued"` as the claim states. -/
theorem c9_counterexample :
    (videoGeneratePOST true none c9Body (.ok "abc" "processing")).response
      = .okResp "abc" "processing" ∧
    (videoGeneratePOST true none c9Body (.ok "abc" "processing")).response
      ≠ .okResp "abc" "queued" := by
  refine ⟨rfl, ?_⟩
  rw [show (videoGeneratePOST true none c9Body (.ok "abc" "processing")).response
      = .okResp "abc" "processing" from rfl]
  intro h
  injection h with h1 h2
  exact absurd h2 (by decide)

/-- C9 (amended): a valid submission (nonempty string prompt, token
configured) issues exactly one outbound creation call carrying the prompt,
duration and resolution plus the fixed `prompt_optimizer = true` flag; on a
success response the route returns the provider-issued id together with the
provider-reported status (`"queued"` exactly when the provider says so); and
it writes nothing to the Local Result Cache. -/
theorem c9_submission_amended (body : RequestBody) (s : String)
    (hp : body.prompt = some (.str s)) (hs : s ≠ "")
    (ver : Option String) (resp : ProviderResp) :
    (videoGeneratePOST true ver body resp).calls
      = [⟨strOrElse ver defaultModelVersion, .str s,
          body.duration.getD (.num 6), body.resolution.getD (.str "768p"), true⟩] ∧
    (∀ id st, resp = .ok id st →
      (videoGeneratePOST true ver body resp).response = .okResp id st) ∧
    (videoGeneratePOST true ver body resp).cacheWrites = [] := by
  have hv : validPrompt (some (Json.str s)) = true := by
    simpa [validPrompt] using hs
  refine ⟨?_, ?_, ?_⟩
  · cases resp <;> simp [videoGeneratePOST, hp, hv]
  · intro id st hresp
    subst hresp
    simp [videoGeneratePOST, hp, hv]
  · cases resp <;> simp [videoGeneratePOST, hp, hv]

/-- Witness for C9 (amended) at a concrete valid submission. -/
theorem c9_witness :
    (videoGeneratePOST true none c9Body (.ok "abc" "queued")).calls
      = [⟨strOrElse none defaultModelVersion, .str "a cat",
          c9Body.duration.getD (.num 6), c9Body.resolution.getD (.str "768p"), true⟩] :=
  (c9_submission_amended c9Body "a cat" rfl (by decide) none (.ok "abc" "queued")).1

/-- C10: for a request with a nonempty prompt, an omitted duration forwards
the default `6`, an omitted resolution forwards the default `"768p"`, and
with both omitted the single outbound call carries exactly the defaults. -/
theorem c10_defaults (s : String) (hs : s ≠ "") (dj rj : Json)
    (ver : Option String) (resp : ProviderResp) :
    ((videoGeneratePOST true ver ⟨some (.str s), none, some rj⟩ resp).calls.map
        GenerateCall.duration = [.num 6]) ∧
    ((videoGeneratePOST true ver ⟨some (.str s), some dj, none⟩ resp).calls.map
        GenerateCall.resolution = [.str "768p"]) ∧
    ((videoGeneratePOST true ver ⟨some (.str s), none, none⟩ resp).calls
      = [⟨strOrElse ver defaultModelVersion, .str s, .num 6, .str "768p", true⟩]) := by
  have hv : validPrompt (some (Json.str s)) = true := by simpa [validPrompt] using hs
  refine ⟨?_, ?_, ?_⟩ <;> cases resp <;> simp [videoGeneratePOST, hv]

/-- Witness for C10 at a concrete request omitting both optional fields. -/
theorem c10_witness :
    (videoGeneratePOST true none ⟨some (.str "a cat"), none, none⟩
        (.ok "abc" "queued")).calls
      = [⟨strOrElse none defaultModelVersion, .str "a cat", .num 6, .str "768p", true⟩] :=
  (c10_defaults "a cat" (by decide) .null .null none (.ok "abc" "queued")).2.2

/-! The Status Poller and the Local Result Cache (`video-hub.tsx`).

The `useEffect` polling loop is modelled as an atomic step function on the
component state: each `setInterval` tick consumes one status response (from
the normalized status route), and `clearInterval` / unmount are modelled by
the `active` flag. `console.error` emissions are counted in `logs`. -/

/-- `saveToLibrary` from `video-hub.tsx`: prepend the item and keep the first
100 entries. -/
def saveToLibrary (item : LibraryItem) (items : List LibraryItem) : List LibraryItem :=
  (item :: items).take 100

/-- Fold of `saveToLibrary` over a sequence of appended items. -/
def appendAll (xs : List LibraryItem) (init : List LibraryItem) : List LibraryItem :=
  xs.foldl (fun acc it => saveToLibrary it acc) init

/-- Per-job configuration captured by the polling effect closure. -/
structure PollCfg where
  predictionId : String
  uiPrompt : String
  durationHead : Option Int
  resolution : String

/-- One response of the status route as consumed by a polling tick:
either a transport-level failure (fetch threw, or a non-ok status made the
handler throw), or a normalized payload. -/
inductive PollResponse where
  | transportFail
  | ok (status : String) (output : Json) (errField : Option String)

/-- Client-side state touched by the polling effect. -/
structure PollState where
  active : Bool
  status : Option String
  videoUrl : Option Json
  loading : Bool
  error : Option String
  items : List LibraryItem
  queries : Nat
  logs : Nat

/-- State right after a successful submission (`handleGenerate` set status
to "starting" and loading to true) with the polling interval scheduled. -/
def initialPollState (items : List LibraryItem) : PollState :=
  ⟨true, some "starting", none, true, none, items, 0, 0⟩

/-- Truthiness of the status response `error` field (a string or null). -/
def errTruthy : Option String → Bool
  | some e => e != ""
  | none => false

/-- The `LibraryItem` built when a poll observes `succeeded` with truthy output. -/
def mkPollItem (cfg : PollCfg) (now : Nat) (output : Json) : LibraryItem :=
  ⟨cfg.predictionId, strTrim cfg.uiPrompt, now, output, cfg.durationHead.getD 6, cfg.resolution⟩

/-- One interval tick of the polling effect (`video-hub.tsx` lines 396-429).
A tick only fires while the interval is scheduled (`active`); a transport
failure logs, stops loading and clears the interval; otherwise the observed
status is stored, a truthy error field is surfaced, `succeeded` with truthy
output resolves the video and appends to the library, and `failed`/`canceled`
stop the interval. -/
def pollTick (cfg : PollCfg) (now : Nat) (s : PollState) (r : PollResponse) : PollState :=
  if s.active then
    match r with
    | .transportFail =>
        { s with queries := s.queries + 1, logs := s.logs + 1,
                 loading := false, active := false }
    | .ok st output errField =>
        let s1 := { s with queries := s.queries + 1, status := some st }
        let s2 := if errTruthy errField then { s1 with error := errField } else s1
        let s3 :=
          if st == "succeeded" && truthy output then
            { s2 with videoUrl := some output, loading := false, active := false,
                      items := saveToLibrary (mkPollItem cfg now output) s2.items }
          else s2
        if st == "failed" || st == "canceled" then
          { s3 with loading := false, active := false }
        else s3
  else s

/-- Run of the polling loop over a list of successive status responses. -/
def runPoll (cfg : PollCfg) (now : Nat) (s : PollState) : List PollResponse → PollState
  | [] => s
  | r :: rs => runPoll cfg now (pollTick cfg now s r) rs

/-- Teardown of the consuming context: the effect cleanup runs
`clearInterval` synchronously. -/
def teardown (s : PollState) : PollState := { s with active := false }

theorem pollTick_inactive (cfg : PollCfg) (now : Nat) (s : PollState)
    (r : PollResponse) (h : s.active = false) : pollTick cfg now s r = s := by
  simp [pollTick, h]

theorem runPoll_inactive (cfg : PollCfg) (now : Nat) (s : PollState)
    (h : s.active = false) : ∀ rs, runPoll cfg now s rs = s := by
  intro rs
  induction rs with
  | nil => rfl
  | cons r rs ih => rw [runPoll, pollTick_inactive cfg now s r h, ih]

/-- Concrete polling configuration used by the counterexamples and runs. -/
def cfg0 : PollCfg := ⟨"p1", "a cat", some 6, "768p"⟩

/-- A status response reporting the terminal status `succeeded` with a null
(unresolvable) output. -/
def succeededNoOutput : PollResponse := .ok "succeeded" .null none

/-- C2 counterexample: after the poller observes the terminal status
`succeeded` with a null output, the interval stays active and the next tick
issues a further status query (queries goes from 1 to 2). -/
theorem c2_counterexample :
    (pollTick cfg0 0 (initialPollState []) succeededNoOutput).active = true ∧
    (pollTick cfg0 0 (initialPollState []) succeededNoOutput).queries = 1 ∧
    (pollTick cfg0 0 (pollTick cfg0 0 (initialPollState []) succeededNoOutput)
        succeededNoOutput).queries = 2 :=
  ⟨rfl, rfl, rfl⟩

/-- C2 (amended): once a tick observes `failed`, `canceled`, or `succeeded`
together with a truthy output, the interval is cleared and no later tick
issues a query or emits state (the run is the identity from then on);
tearing down the consuming context synchronously clears the interval and
likewise nothing is queried or emitted afterwards. -/
theorem c2_stop_amended (cfg : PollCfg) (now : Nat) (s : PollState)
    (st : String) (output : Json) (errField : Option String)
    (hterm : st = "failed" ∨ st = "canceled" ∨ (st = "succeeded" ∧ truthy output = true)) :
    (pollTick cfg now s (.ok st output errField)).active = false ∧
    (∀ rs, runPoll cfg now (pollTick cfg now s (.ok st output errField)) rs
        = pollTick cfg now s (.ok st output errField)) ∧
    (teardown s).active = false ∧
    (∀ rs, runPoll cfg now (teardown s) rs = teardown s) := by
  have hstop : (pollTick cfg now s (.ok st output errField)).active = false := by
    cases hact : s.active
    · rw [pollTick_inactive cfg now s _ hact]; exact hact
    · rcases hterm with hf | hc | ⟨hsu, hout⟩
      · subst hf; simp [pollTick, hact]
      · subst hc; simp [pollTick, hact]
      · subst hsu; simp [pollTick, hact, hout]
  refine ⟨hstop, runPoll_inactive cfg now _ hstop, rfl, runPoll_inactive cfg now _ rfl⟩

/-- Witness for C2 (amended) at a concrete terminal observation. -/
theorem c2_witness :
    (pollTick cfg0 0 (initialPollState []) (.ok "failed" .null none)).active = false :=
  (c2_stop_amended cfg0 0 (initialPollState []) "failed" .null none (Or.inl rfl)).1

/-- C6: a transport-level poll failure stops the interval, logs the error,
leaves status, error state, resolved url and library items unchanged (in
particular the job is not marked failed), and no retry or further query or
state change ever happens afterwards. -/
theorem c6_transport_failure (cfg : PollCfg) (now : Nat) (s : PollState)
    (h : s.active = true) :
    pollTick cfg now s .transportFail
      = { s with queries := s.queries + 1, logs := s.logs + 1,
                 loading := false, active := false } ∧
    (pollTick cfg now s .transportFail).status = s.status ∧
    (pollTick cfg now s .transportFail).error = s.error ∧
    (pollTick cfg now s .transportFail).items = s.items ∧
    (∀ rs, runPoll cfg now (pollTick cfg now s .transportFail) rs
        = pollTick cfg now s .transportFail) := by
  have heq : pollTick cfg now s .transportFail
      = { s with queries := s.queries + 1, logs := s.logs + 1,
                 loading := false, active := false } := by
    simp [pollTick, h]
  refine ⟨heq, ?_, ?_, ?_, ?_⟩
  · rw [heq]
  · rw [heq]
  · rw [heq]
  · exact runPoll_inactive cfg now _ (by rw [heq])

/-- Witness for C6 at a concrete active state. -/
theorem c6_witness :
    pollTick cfg0 0 (initialPollState []) .transportFail
      = { initialPollState [] with queries := 1, logs := 1,
                                   loading := false, active := false } :=
  (c6_transport_failure cfg0 0 (initialPollState []) rfl).1

/-- The status-response sequence of the C8 scenario: queued, running, running,
then succeeded with a resolvable output. -/
def c8Responses : List PollResponse :=
  [.ok "queued" .null none, .ok "running" .null none, .ok "running" .null none,
   .ok "succeeded" (.str "https://x/b.mp4") none]

/-- C8: on [queued, running, running, succeeded-with-output] the poller issues
exactly 4 status queries, ends inactive with exactly one LibraryItem appended,
and issues no query and emits no state on any later tick. -/
theorem c8_exact_run :
    (runPoll cfg0 5 (initialPollState []) c8Responses).queries = 4 ∧
    (runPoll cfg0 5 (initialPollState []) c8Responses).items.length = 1 ∧
    (runPoll cfg0 5 (initialPollState []) c8Responses).active = false ∧
    (∀ rs, runPoll cfg0 5 (runPoll cfg0 5 (initialPollState []) c8Responses) rs
        = runPoll cfg0 5 (initialPollState []) c8Responses) := by
  refine ⟨rfl, rfl, rfl, ?_⟩
  exact runPoll_inactive cfg0 5 _ rfl

/-- Library item with a distinguishing creation timestamp, used for the
101-append scenario of C3. -/
def mkSeqItem (n : Nat) : LibraryItem := ⟨"", "", n, .null, 0, ""⟩

set_option maxRecDepth 40000 in
/-- C3: after any append the stored sequence has at most 100 entries and the
new item is at the head; appending 101 items (creation times 0..100) to the
empty cache retains exactly the 100 newest in newest-first order, and the
oldest original item (creation time 0) is absent. -/
theorem c3_cache_bound :
    (∀ (item : LibraryItem) (items : List LibraryItem),
        (saveToLibrary item items).length ≤ 100 ∧
        (saveToLibrary item items).head? = some item) ∧
    ((appendAll ((List.range 101).map mkSeqItem) []).map LibraryItem.createdAt
        = (List.range' 1 100).reverse) ∧
    (appendAll ((List.range 101).map mkSeqItem) []).length = 100 ∧
    ¬ (0 ∈ (appendAll ((List.range 101).map mkSeqItem) []).map LibraryItem.createdAt) := by
  refine ⟨?_, by decide, by decide, by decide⟩
  intro item items
  constructor
  · simp [saveToLibrary]
  · rfl

/-! The comment store (`lib/db.ts`, `app/api/init-db/route.ts`, and the
comments-page server action) and the Local Result Cache load path.

The managed Postgres store is modelled by the state of its one table;
transport-level failures of a query are an explicit boolean input. `console`
emissions are counted where a claim mentions logging. -/

/-- One row of the `comments` table. -/
structure CommentRow where
  id : Nat
  comment : String
  createdAt : Nat
  deriving DecidableEq

/-- State of the `comments` table: whether it exists, its rows, and the next
value of the id sequence owned by the `SERIAL` column. -/
structure DbState where
  tableExists : Bool
  rows : List CommentRow
  nextSeq : Nat
  deriving DecidableEq

/-- `DROP TABLE IF EXISTS comments`: never errors; dropping the table also
drops its rows and its owned id sequence. -/
def dropTableIfExists (_st : DbState) : DbState := ⟨false, [], 1⟩

/-- `CREATE TABLE comments (...)`: errors if the table already exists. -/
def createTable (st : DbState) : Except String DbState :=
  if st.tableExists then .error "relation comments already exists"
  else .ok ⟨true, [], 1⟩

/-- `CREATE TABLE IF NOT EXISTS comments (...)`: a no-op when the table
exists, never an error. -/
def createTableIfNotExists (st : DbState) : DbState :=
  if st.tableExists then st else ⟨true, [], 1⟩

/-- `initializeDatabase` from `lib/db.ts`: DROP TABLE IF EXISTS, then CREATE
TABLE (re-raising any error after logging it). -/
def initDatabase (st : DbState) : Except String DbState :=
  createTable (dropTableIfExists st)

/-- GET handler of `app/api/init-db/route.ts`: CREATE TABLE IF NOT EXISTS,
responding success (it only fails on a transport error, not modelled here
because the creation itself cannot error). -/
def initDbGET (st : DbState) : DbState :=
  createTableIfNotExists st

/-- The table state the C5 analysis evaluates at: the comments table exists
and holds one row. -/
def c5ExistingState : DbState := ⟨true, [⟨1, "hello", 5⟩], 2⟩

/-- C5 (code divergence): invoked when the table already exists with a row,
`initializeDatabase` drops and recreates the table, losing the row and
resetting the id sequence — not a no-op — while the route-level
initialization (CREATE TABLE IF NOT EXISTS) is a no-op there; both never
raise on this state, and a second invocation right after a first leaves the
same state as one invocation. -/
theorem c5_init_drops_rows :
    initDatabase c5ExistingState = .ok ⟨true, [], 1⟩ ∧
    (⟨true, [], 1⟩ : DbState) ≠ c5ExistingState ∧
    initDbGET c5ExistingState = c5ExistingState ∧
    (initDatabase c5ExistingState).bind initDatabase
      = initDatabase c5ExistingState := by
  refine ⟨rfl, by decide, rfl, rfl⟩

/-- Content of the local-storage cell holding the serialized library:
absent, present but not valid JSON, or parsing to a JSON value. -/
inductive StoredCell where
  | absent
  | corrupt
  | parsed (j : Json)

/-- The parse step of the library load: `JSON.parse(getItem(LIB_KEY) || "[]")`.
An absent cell parses the fallback `"[]"`; a corrupt cell throws. -/
def parseStoredCell : StoredCell → Except String Json
  | .absent => .ok (.arr [])
  | .corrupt => .error "SyntaxError"
  | .parsed j => .ok j

/-- The library initializer from `video-hub.tsx` (lines 352-355): the parse
step wrapped in try/catch, the catch returning the empty array. -/
def loadLibrary (c : StoredCell) : Json :=
  match parseStoredCell c with
  | .ok j => j
  | .error _ => .arr []

/-- Insertion into a list kept in descending `createdAt` order. -/
def insertDesc (r : CommentRow) : List CommentRow → List CommentRow
  | [] => [r]
  | x :: xs => if r.createdAt ≤ x.createdAt then x :: insertDesc r xs else r :: x :: xs

/-- Rows sorted by `created_at` descending, as the SELECT orders them. -/
def sortByCreatedDesc (rows : List CommentRow) : List CommentRow :=
  rows.foldr insertDesc []

/-- `getComments` from `lib/db.ts`: SELECT ordered by `created_at` descending;
any failure (transport failure or missing table) is caught, logged and
yields the empty list. -/
def getComments (transportFail : Bool) (st : DbState) : List CommentRow :=
  if transportFail || !st.tableExists then []
  else sortByCreatedDesc st.rows

/-- `insertComment` from `lib/db.ts`: INSERT RETURNING the created row; on
failure it logs the error (the counter) and re-raises. -/
def insertComment (transportFail : Bool) (now : Nat) (st : DbState)
    (text : String) : Except String (CommentRow × DbState) × Nat :=
  if transportFail || !st.tableExists then (.error "insert failed", 1)
  else
    (.ok (⟨st.nextSeq, text, now⟩,
      ⟨true, st.rows ++ [⟨st.nextSeq, text, now⟩], st.nextSeq + 1⟩), 0)

/-- The `create` server action of the comments page: blank input returns
without any store call; otherwise the trimmed text is inserted, and an
insert failure is caught and logged. Returns the final table state and the
total number of logged errors. -/
def createAction (transportFail : Bool) (now : Nat) (st : DbState)
    (input : Option String) : DbState × Nat :=
  match input with
  | none => (st, 0)
  | some text =>
    if strTrim text = "" then (st, 0)
    else
      match insertComment transportFail now st (strTrim text) with
      | (.ok (_, st2), n) => (st2, n)
      | (.error _, n) => (st, n + 1)

/-- C7 counterexample: a failing comment write at the store layer is logged
AND re-raised (`Except.error`), not merely logged as the claim states. -/
theorem c7_counterexample :
    (insertComment true 7 ⟨true, [], 1⟩ "hello").1 = .error "insert failed" ∧
    (insertComment true 7 ⟨true, [], 1⟩ "hello").1.isOk = false ∧
    (insertComment true 7 ⟨true, [], 1⟩ "hello").2 = 1 :=
  ⟨rfl, rfl, rfl⟩

/-- C7 (amended): the library load fails open (empty sequence) on absent or
corrupt stored data; the comment list fails open (empty) on any read failure;
a failing comment write is logged and re-raised by the store layer, and the
page-level create action catches it, logging again and leaving the table
state unchanged instead of propagating further. -/
theorem c7_fail_open_amended :
    loadLibrary .absent = .arr [] ∧
    loadLibrary .corrupt = .arr [] ∧
    (∀ st, getComments true st = []) ∧
    (∀ (now : Nat) (st : DbState) (text : String),
        (insertComment true now st text).1.isOk = false ∧
        (insertComment true now st text).2 = 1) ∧
    (∀ (now : Nat) (st : DbState), createAction true now st (some "hello") = (st, 2)) := by
  exact ⟨rfl, rfl, fun st => rfl, fun now st text => ⟨rfl, rfl⟩, fun now st => rfl⟩

end Aeon
